import Mathlib

/-!
Verification development for the cursoradmin analytics pipeline.

The definitions below are a shallow embedding of the data-normalization and
metric-derivation code in `backend/data_processor.py` and of the spend-join
logic in `dashboard.py`.  Numeric cells are modelled as exact rationals; the
IEEE specials that pandas produces on division by zero and on empty means are
modelled explicitly by the `PFloat` type (rounding error is irrelevant to the
properties proved here, only the NaN/inf bookkeeping matters).  Python's
dynamic typing, which decides whether a malformed record raises inside the
batch loop of `process_usage_data`, is modelled by `PyVal` together with
`Option`-valued primitive operations (`none` plays the role of a raised
exception that the enclosing `try/except` turns into an empty result).
-/

namespace CursorAdmin

/-- A pandas/NumPy floating cell: NaN, plus or minus infinity, or a finite
value (modelled exactly as a rational). -/
inductive PFloat where
  | nan : PFloat
  | inf : PFloat
  | ninf : PFloat
  | fin : ℚ → PFloat
deriving DecidableEq

/-- Float division of finite values as pandas performs it elementwise:
`0/0` is NaN, `x/0` is signed infinity for `x ≠ 0`, otherwise exact. -/
def pdiv (a b : ℚ) : PFloat :=
  if b = 0 then
    if a = 0 then PFloat.nan else if 0 < a then PFloat.inf else PFloat.ninf
  else PFloat.fin (a / b)

/-- `Series.fillna(0)` on a single cell: NaN becomes `0`; every other value,
infinities included, is left unchanged. -/
def fillna0 : PFloat → PFloat
  | PFloat.nan => PFloat.fin 0
  | x => x

/-- `Series.mean()` in pandas: the mean of the non-missing values, NaN when
there are none. -/
def pmean (vals : List ℚ) : PFloat :=
  if vals.length = 0 then PFloat.nan
  else PFloat.fin (vals.sum / (vals.length : ℚ))

/-- A dynamically typed Python scalar as it can appear in a raw usage
payload: a number or a string. -/
inductive PyVal where
  | num : ℚ → PyVal
  | str : String → PyVal
deriving DecidableEq

/-- Python `v > 0`: defined for numbers, a `TypeError` (modelled as `none`)
when `v` is a string. -/
def pyGtZero : PyVal → Option Bool
  | PyVal.num q => some (0 < q)
  | PyVal.str _ => none

/-- Python `a / b` on payload values: a `TypeError` when either side is a
string, a `ZeroDivisionError` when `b = 0` (modelled as `none`). -/
def pyDiv : PyVal → PyVal → Option ℚ
  | PyVal.num a, PyVal.num b => if b = 0 then none else some (a / b)
  | _, _ => none

/-- Coerce a payload value to a number; strings raise (modelled as `none`),
as they do when the score formula divides them by a constant. -/
def asNum : PyVal → Option ℚ
  | PyVal.num q => some q
  | PyVal.str _ => none

/-- `metrics.get(key, 0)`: a missing key defaults to the number `0`. -/
def mget (o : Option PyVal) : PyVal := o.getD (PyVal.num 0)

/-- Python `round(x, 2)` idealized over the rationals: round half to even at
the second decimal place. -/
def roundHalfEven (q : ℚ) : ℤ :=
  let f : ℤ := ⌊q⌋
  let frac : ℚ := q - (f : ℚ)
  if frac < 1/2 then f
  else if 1/2 < frac then f + 1
  else if f % 2 = 0 then f else f + 1

/-- Round a rational to two decimal places, half to even. -/
def round2 (q : ℚ) : ℚ := ((roundHalfEven (q * 100) : ℤ) : ℚ) / 100

/-- `DataProcessor._calculate_activity_score`: weighted composite of the five
base metrics, each min-max normalized against a fixed cap, times 100,
rounded to two decimals. -/
def calculate_activity_score (ts tr tk da dur : ℚ) : ℚ :=
  let w_sessions : ℚ := 0.2
  let w_requests : ℚ := 0.3
  let w_tokens : ℚ := 0.2
  let w_days_active : ℚ := 0.2
  let w_avg_duration : ℚ := 0.1
  let normalized_sessions := min (ts / 100) 1
  let normalized_requests := min (tr / 1000) 1
  let normalized_tokens := min (tk / 100000) 1
  let normalized_days := min (da / 30) 1
  let normalized_duration := min (dur / 300) 1
  let score :=
    (normalized_sessions * w_sessions +
     normalized_requests * w_requests +
     normalized_tokens * w_tokens +
     normalized_days * w_days_active +
     normalized_duration * w_avg_duration) * 100
  round2 score

/-- The activity-score formula as the specification words it: each input
min-max normalized against caps 100/1000/100000/30/300 and capped at 1.0,
weighted by 0.2/0.3/0.2/0.2/0.1, summed, multiplied by 100, rounded to two
decimal places. -/
def activityScoreSpec (ts tr tk da dur : ℚ) : ℚ :=
  round2 ((min (ts / 100) 1 * 0.2 + min (tr / 1000) 1 * 0.3 +
           min (tk / 100000) 1 * 0.2 + min (da / 30) 1 * 0.2 +
           min (dur / 300) 1 * 0.1) * 100)

/-- The `metrics` sub-dictionary of one raw usage payload.  A `none` field is
a missing key; a present field may hold a value of the wrong type. -/
structure RawMetrics where
  total_sessions : Option PyVal := none
  total_requests : Option PyVal := none
  total_tokens : Option PyVal := none
  unique_days_active : Option PyVal := none
  avg_session_duration : Option PyVal := none
  feature_usage : List (String × ℚ) := []
deriving DecidableEq

/-- One row of the usage DataFrame before percentile ranking. -/
structure UsageRow where
  user_id : String
  total_sessions : ℚ
  total_requests : ℚ
  total_tokens : ℚ
  unique_days_active : ℚ
  avg_session_duration : ℚ
  features : List (String × ℚ)
  requests_per_session : ℚ
  tokens_per_request : ℚ
  activity_score : ℚ
deriving DecidableEq

/-- The conditional ratio `a / b if b > 0 else 0` of the derived-metric
lines, with the Python exception behaviour of both the comparison and the
division. -/
def safeRatio (a b : PyVal) : Option ℚ := do
  let c ← pyGtZero b
  if c then pyDiv a b else pure 0

/-- The row-building body of the `process_usage_data` loop: flatten the
metrics, derive `requests_per_session`, `tokens_per_request` and
`activity_score`.  Returns `none` when the Python code would raise (a
string where a number is needed), at the same program point. -/
def deriveUsageRow (uid : String) (m : RawMetrics) : Option UsageRow := do
  let ts := mget m.total_sessions
  let tr := mget m.total_requests
  let tk := mget m.total_tokens
  let da := mget m.unique_days_active
  let dur := mget m.avg_session_duration
  let rps ← safeRatio tr ts
  let tpr ← safeRatio tk tr
  let tsq ← asNum ts
  let trq ← asNum tr
  let tkq ← asNum tk
  let daq ← asNum da
  let durq ← asNum dur
  pure { user_id := uid
         total_sessions := tsq
         total_requests := trq
         total_tokens := tkq
         unique_days_active := daq
         avg_session_duration := durq
         features := m.feature_usage
         requests_per_session := rps
         tokens_per_request := tpr
         activity_score := calculate_activity_score tsq trq tkq daq durq }

/-- The `for user_id, data in usage_data.items()` loop: records whose data is
falsy or lacks the `metrics` key (modelled as `none`) are skipped with
`continue`; a raised exception (a `none` from `deriveUsageRow`) propagates
out of the loop, losing every row built so far. -/
def buildUsageRows : List (String × Option RawMetrics) → Option (List UsageRow)
  | [] => some []
  | (_, none) :: rest => buildUsageRows rest
  | (uid, some m) :: rest => do
      let r ← deriveUsageRow uid m
      let rs ← buildUsageRows rest
      pure (r :: rs)

/-- `Series.rank(pct=True) * 100` for one value of a column: average rank of
the tied group divided by the column length, as a percentage. -/
def rankPct (xs : List ℚ) (v : ℚ) : ℚ :=
  (((xs.filter (fun x => x < v)).length : ℚ) +
     (((xs.filter (fun x => x = v)).length : ℚ) + 1) / 2)
    / (xs.length : ℚ) * 100

/-- One row of the usage DataFrame after the percentile columns are added. -/
structure RankedRow extends UsageRow where
  total_sessions_percentile : ℚ
  total_requests_percentile : ℚ
  total_tokens_percentile : ℚ
  activity_score_percentile : ℚ
deriving DecidableEq

/-- The percentile-ranking pass of `process_usage_data`: each of the four
numeric columns is ranked against the whole batch. -/
def addPercentiles (rows : List UsageRow) : List RankedRow :=
  rows.map (fun r =>
    { toUsageRow := r
      total_sessions_percentile :=
        rankPct (rows.map (fun x => x.total_sessions)) r.total_sessions
      total_requests_percentile :=
        rankPct (rows.map (fun x => x.total_requests)) r.total_requests
      total_tokens_percentile :=
        rankPct (rows.map (fun x => x.total_tokens)) r.total_tokens
      activity_score_percentile :=
        rankPct (rows.map (fun x => x.activity_score)) r.activity_score })

/-- `DataProcessor.process_usage_data`: build the rows, then rank the four
numeric columns over the batch.  The enclosing `try/except` turns any raised
exception into an empty DataFrame, discarding the whole batch. -/
def process_usage_data (usage_data : List (String × Option RawMetrics)) :
    List RankedRow :=
  match buildUsageRows usage_data with
  | none => []
  | some rows => addPercentiles rows

/-- One raw record of the daily-usage payload.  A `none` field stands for a
missing column or a NaN cell, both of which `process_daily_usage_data`
replaces with the same default. -/
structure RawDailyRecord where
  subscriptionIncludedReqs : Option ℚ := none
  usageBasedReqs : Option ℚ := none
  apiKeyReqs : Option ℚ := none
  chatRequests : Option ℚ := none
  composerRequests : Option ℚ := none
  totalAccepts : Option ℚ := none
  totalApplies : Option ℚ := none
  totalTabsAccepted : Option ℚ := none
  totalTabsShown : Option ℚ := none
  mostUsedModel : Option String := none
  applyMostUsedExtension : Option String := none
  tabMostUsedExtension : Option String := none
  email : Option String := none
deriving DecidableEq

/-- One row of the processed daily-usage DataFrame. -/
structure DailyUsageRow where
  subscriptionIncludedReqs : ℚ
  usageBasedReqs : ℚ
  apiKeyReqs : ℚ
  chatRequests : ℚ
  composerRequests : ℚ
  totalAccepts : ℚ
  totalApplies : ℚ
  totalTabsAccepted : ℚ
  totalTabsShown : ℚ
  mostUsedModel : String
  applyMostUsedExtension : String
  tabMostUsedExtension : String
  email : String
  subscription_requests : ℚ
  usage_based_requests : ℚ
  api_key_requests : ℚ
  total_premium_requests : ℚ
  primary_model : String
  primary_apply_extension : String
  primary_tab_extension : String
  total_requests : ℚ
  productivity_score : ℚ
deriving DecidableEq

/-- `Series.replace(0, 1)` on one cell. -/
def replaceZeroOne (q : ℚ) : ℚ := if q = 0 then 1 else q

/-- The per-row work of `DataProcessor.process_daily_usage_data`: fill the
documented defaults (numerics 0, except the two divisors `totalApplies` and
`totalTabsShown` which default to 1; sentinel strings), then derive the
request roll-ups and the productivity score with its zero divisors replaced
by 1. -/
def processDailyRecord (r : RawDailyRecord) : DailyUsageRow :=
  let subscriptionIncludedReqs := r.subscriptionIncludedReqs.getD 0
  let usageBasedReqs := r.usageBasedReqs.getD 0
  let apiKeyReqs := r.apiKeyReqs.getD 0
  let chatRequests := r.chatRequests.getD 0
  let composerRequests := r.composerRequests.getD 0
  let totalAccepts := r.totalAccepts.getD 0
  let totalApplies := r.totalApplies.getD 1
  let totalTabsAccepted := r.totalTabsAccepted.getD 0
  let totalTabsShown := r.totalTabsShown.getD 1
  let mostUsedModel := r.mostUsedModel.getD ("unknown")
  let applyMostUsedExtension := r.applyMostUsedExtension.getD (".unknown")
  let tabMostUsedExtension := r.tabMostUsedExtension.getD (".unknown")
  let email := r.email.getD ("unknown@email.com")
  { subscriptionIncludedReqs := subscriptionIncludedReqs
    usageBasedReqs := usageBasedReqs
    apiKeyReqs := apiKeyReqs
    chatRequests := chatRequests
    composerRequests := composerRequests
    totalAccepts := totalAccepts
    totalApplies := totalApplies
    totalTabsAccepted := totalTabsAccepted
    totalTabsShown := totalTabsShown
    mostUsedModel := mostUsedModel
    applyMostUsedExtension := applyMostUsedExtension
    tabMostUsedExtension := tabMostUsedExtension
    email := email
    subscription_requests := subscriptionIncludedReqs
    usage_based_requests := usageBasedReqs
    api_key_requests := apiKeyReqs
    total_premium_requests := subscriptionIncludedReqs + usageBasedReqs + apiKeyReqs
    primary_model := mostUsedModel
    primary_apply_extension := applyMostUsedExtension
    primary_tab_extension := tabMostUsedExtension
    total_requests := chatRequests + composerRequests
    productivity_score :=
      (totalAccepts / replaceZeroOne totalApplies) *
      (totalTabsAccepted / replaceZeroOne totalTabsShown) }

/-- `DataProcessor.process_daily_usage_data` over the record list. -/
def process_daily_usage_data (rs : List RawDailyRecord) : List DailyUsageRow :=
  rs.map processDailyRecord

/-- The `tokenUsage` sub-dictionary of one usage event. -/
structure RawTokenUsage where
  totalCents : Option ℚ := none
  inputTokens : Option ℚ := none
  outputTokens : Option ℚ := none
  cacheWriteTokens : Option ℚ := none
  cacheReadTokens : Option ℚ := none
deriving DecidableEq

/-- One raw usage event from the `usageEvents` payload. -/
structure RawUsageEvent where
  userEmail : String := ""
  kindLabel : Option String := none
  model : Option String := none
  maxMode : Option Bool := none
  tokenUsage : Option RawTokenUsage := none
deriving DecidableEq

/-- One row of the processed usage-events DataFrame. -/
structure EventRow where
  userEmail : String
  cost_cents : ℚ
  input_tokens : ℚ
  output_tokens : ℚ
  cache_write_tokens : ℚ
  cache_read_tokens : ℚ
  request_type : Option String
  is_premium : Bool
  is_subscription : Bool
  model_used : Option String
  is_max_mode : Bool
deriving DecidableEq

/-- `df.get('kindLabel', 'Unknown')`: when no event carries the column the
whole column is the scalar default; otherwise each cell is the event's own
value, NaN (`none`) where the event lacks it. -/
def eventRequestType (batchHasKindLabel : Bool) (e : RawUsageEvent) :
    Option String :=
  if batchHasKindLabel then e.kindLabel else some ("Unknown")

/-- Same column-default semantics for `df.get('model', 'unknown')`. -/
def eventModelUsed (batchHasModel : Bool) (e : RawUsageEvent) :
    Option String :=
  if batchHasModel then e.model else some ("unknown")

/-- `DataProcessor.process_usage_events_data`: extract the token-usage
details with default 0, classify the request kind, and flag premium versus
subscription events. -/
def process_usage_events_data (events : List RawUsageEvent) : List EventRow :=
  let hasKind := events.any (fun e => e.kindLabel.isSome)
  let hasModel := events.any (fun e => e.model.isSome)
  events.map (fun e =>
    let tu : RawTokenUsage := e.tokenUsage.getD {}
    let rt := eventRequestType hasKind e
    { userEmail := e.userEmail
      cost_cents := (tu.totalCents).getD 0
      input_tokens := (tu.inputTokens).getD 0
      output_tokens := (tu.outputTokens).getD 0
      cache_write_tokens := (tu.cacheWriteTokens).getD 0
      cache_read_tokens := (tu.cacheReadTokens).getD 0
      request_type := rt
      is_premium := rt = some ("Usage-based")
      is_subscription := rt = some ("Included in Business")
      model_used := eventModelUsed hasModel e
      is_max_mode := (e.maxMode).getD false })

/-- The distinct keys of a groupby, in order of first appearance (key order
is irrelevant to every property proved below). -/
def uniqueKeys (l : List String) : List String :=
  l.foldl (fun acc e => if e ∈ acc then acc else acc ++ [e]) []

/-- Comparison key used by the stable descending sorts: strictly greater,
with any comparison involving NaN false, as in Python/pandas. -/
def pfGtB : PFloat → PFloat → Bool
  | PFloat.fin a, PFloat.fin b => decide (b < a)
  | PFloat.inf, PFloat.fin _ => true
  | PFloat.inf, PFloat.ninf => true
  | PFloat.fin _, PFloat.ninf => true
  | _, _ => false

/-- Insert into a descending-sorted list: the new element goes in front of
the first element not strictly greater than it, which keeps the sort stable
and leaves the order unchanged when every comparison is false (all keys
NaN), exactly as CPython's sort does. -/
def insertDescBy (key : α → PFloat) (a : α) : List α → List α
  | [] => [a]
  | b :: rest =>
      if pfGtB (key b) (key a) then b :: insertDescBy key a rest
      else a :: b :: rest

/-- Stable descending sort by a possibly-NaN key. -/
def sortDescBy (key : α → PFloat) : List α → List α
  | [] => []
  | a :: rest => insertDescBy key a (sortDescBy key rest)

/-- One row of the per-user spending aggregate built by
`get_individual_spending_analysis`. -/
structure SpendingRow where
  userEmail : String
  cost_cents : ℚ
  input_tokens : ℚ
  output_tokens : ℚ
  cache_write_tokens : ℚ
  cache_read_tokens : ℚ
  is_premium_sum : ℕ
  is_subscription_sum : ℕ
  cost_dollars : ℚ
  total_tokens : ℚ
  cost_per_1k_tokens : PFloat
deriving DecidableEq

/-- The slice of one `userEmail` group of a groupby. -/
def filterByEmail (email : String) : List EventRow → List EventRow
  | [] => []
  | r :: rest =>
      if r.userEmail = email then r :: filterByEmail email rest
      else filterByEmail email rest

/-- The aggregate row of one `userEmail` group: sums of the numeric columns,
dollars from cents, token total, and cost per 1k tokens where only the NaN
produced by `0/0` is filled with 0 — `fillna` does not touch the infinity
produced when a positive cost divides by zero tokens. -/
def spendingRowFor (rows : List EventRow) (email : String) : SpendingRow :=
  let g := filterByEmail email rows
  let cc := (g.map (fun r => r.cost_cents)).sum
  let it := (g.map (fun r => r.input_tokens)).sum
  let ot := (g.map (fun r => r.output_tokens)).sum
  let cw := (g.map (fun r => r.cache_write_tokens)).sum
  let cr := (g.map (fun r => r.cache_read_tokens)).sum
  let prem := (g.filter (fun r => r.is_premium)).length
  let subs := (g.filter (fun r => r.is_subscription)).length
  let cd := cc / 100
  let tt := it + ot + cw + cr
  { userEmail := email
    cost_cents := cc
    input_tokens := it
    output_tokens := ot
    cache_write_tokens := cw
    cache_read_tokens := cr
    is_premium_sum := prem
    is_subscription_sum := subs
    cost_dollars := cd
    total_tokens := tt
    cost_per_1k_tokens := fillna0 (pdiv cd (tt / 1000)) }

/-- `DataProcessor.get_individual_spending_analysis`: group the events by
`userEmail`, aggregate, derive dollars and cost per 1k tokens, and sort by
spending, highest first. -/
def get_individual_spending_analysis (rows : List EventRow) :
    List SpendingRow :=
  if rows.isEmpty then []
  else
    sortDescBy (fun r => PFloat.fin r.cost_dollars)
      ((uniqueKeys (rows.map (fun r => r.userEmail))).map (spendingRowFor rows))

/-- One row of the merged users-and-usage table that
`render_comprehensive_top_users` starts from. -/
structure MergedUserRow where
  name : String
  email : String
  total_requests : ℚ
  total_tokens : ℚ
  total_sessions : ℚ
deriving DecidableEq

/-- One row of the per-user spend aggregate built inside
`render_comprehensive_top_users` (groupby `userEmail`, then dollars and
event-token totals). -/
structure SpendAggRow where
  userEmail : String
  cost_cents : ℚ
  input_tokens : ℚ
  output_tokens : ℚ
  model_used_count : ℕ
  cost_dollars : ℚ
  event_tokens : ℚ
deriving DecidableEq

/-- The spend aggregation of `render_comprehensive_top_users`: sums of the
cost and token columns per user email, a non-null count of `model_used`,
`cost_dollars = cost_cents/100` and `event_tokens = input + output`. -/
def spendAgg (events : List EventRow) : List SpendAggRow :=
  (uniqueKeys (events.map (fun r => r.userEmail))).map (fun em =>
    let g := filterByEmail em events
    let cc := (g.map (fun r => r.cost_cents)).sum
    let it := (g.map (fun r => r.input_tokens)).sum
    let ot := (g.map (fun r => r.output_tokens)).sum
    { userEmail := em
      cost_cents := cc
      input_tokens := it
      output_tokens := ot
      model_used_count := (g.filter (fun r => (r.model_used).isSome)).length
      cost_dollars := cc / 100
      event_tokens := it + ot })

/-- One row of the joined top-users table.  Right-side fields carry the NaN
that a left outer join leaves on unmatched rows; after the join only the
`cost_dollars` and `event_tokens` columns are passed through `fillna(0)`. -/
structure TopUserRow where
  name : String
  email : String
  total_requests : ℚ
  total_tokens : ℚ
  total_sessions : ℚ
  userEmail : Option String
  cost_cents : PFloat
  input_tokens : PFloat
  output_tokens : PFloat
  model_used_count : PFloat
  cost_dollars : PFloat
  event_tokens : PFloat
deriving DecidableEq

/-- `DataFrame.nlargest(n, column)`: stable descending selection of the
first `n` rows by the column (ties keep input order, pandas keep='first'). -/
def nlargestBy (key : α → ℚ) (n : ℕ) (rows : List α) : List α :=
  (sortDescBy (fun a => PFloat.fin (key a)) rows).take n

/-- The matching spend-aggregate row of a left-join key, if any (spend
emails are unique, one row at most matches). -/
def findSpendByEmail (em : String) : List SpendAggRow → Option SpendAggRow
  | [] => none
  | s :: rest => if s.userEmail = em then some s else findSpendByEmail em rest

/-- The join step of `dashboard.render_comprehensive_top_users`: take the
top 20 users by `total_requests`, left-join the per-user spend aggregate on
`email = userEmail`, then fill only `cost_dollars` and `event_tokens` with 0
on the unmatched rows. -/
def render_comprehensive_top_users (merged : List MergedUserRow)
    (events : List EventRow) : List TopUserRow :=
  let spending := spendAgg events
  let top := nlargestBy (fun u => u.total_requests) 20 merged
  top.map (fun u =>
    match findSpendByEmail u.email spending with
    | some s =>
        { name := u.name
          email := u.email
          total_requests := u.total_requests
          total_tokens := u.total_tokens
          total_sessions := u.total_sessions
          userEmail := some s.userEmail
          cost_cents := PFloat.fin s.cost_cents
          input_tokens := PFloat.fin s.input_tokens
          output_tokens := PFloat.fin s.output_tokens
          model_used_count := PFloat.fin (s.model_used_count : ℚ)
          cost_dollars := fillna0 (PFloat.fin s.cost_dollars)
          event_tokens := fillna0 (PFloat.fin s.event_tokens) }
    | none =>
        { name := u.name
          email := u.email
          total_requests := u.total_requests
          total_tokens := u.total_tokens
          total_sessions := u.total_sessions
          userEmail := none
          cost_cents := PFloat.nan
          input_tokens := PFloat.nan
          output_tokens := PFloat.nan
          model_used_count := PFloat.nan
          cost_dollars := fillna0 PFloat.nan
          event_tokens := fillna0 PFloat.nan })

/-- The feature columns of the usage DataFrame: the union of the feature
keys over all rows, in order of first appearance; a row lacking one of them
holds NaN there. -/
def featureCols (rows : List RankedRow) : List String :=
  uniqueKeys (rows.flatMap (fun r => r.features.map (fun p => p.1)))

/-- A row's cell of one feature column: its own count when it carries the
feature, NaN (`none`) otherwise. -/
def lookupFeature (f : String) : List (String × ℚ) → Option ℚ
  | [] => none
  | p :: rest => if p.1 = f then some p.2 else lookupFeature f rest

/-- The mean of one feature column over a slice of rows: pandas skips the
NaN cells of rows that lack the feature and yields NaN when no value
remains. -/
def featureMean (rows : List RankedRow) (f : String) : PFloat :=
  pmean (rows.filterMap (fun r => lookupFeature f r.features))

/-- `DataProcessor._get_segment_top_features`: mean usage of every feature
column over the segment slice, sorted descending (stable; NaN keys compare
false everywhere, so an all-NaN list keeps its order), first three kept. -/
def get_segment_top_features (cols : List String)
    (segRows : List RankedRow) : List (String × PFloat) :=
  (sortDescBy (fun p => p.2)
      (cols.map (fun f => (f, featureMean segRows f)))).take 3

/-- The four activity tiers of `pd.cut`, as categorical values. -/
inductive Segment where
  | low : Segment
  | medium : Segment
  | high : Segment
  | power : Segment
deriving DecidableEq

/-- The display label of each tier, as passed to `pd.cut(labels=...)`. -/
def segmentName : Segment → String
  | Segment.low => "Low Activity"
  | Segment.medium => "Medium Activity"
  | Segment.high => "High Activity"
  | Segment.power => "Power Users"

/-- `df['segment'].cat.categories`: the four categories in the order the
labels were given to `pd.cut`. -/
def segmentCats : List Segment :=
  [Segment.low, Segment.medium, Segment.high, Segment.power]

/-- The four tier labels in category order. -/
def segmentLabels : List String :=
  ["Low Activity", "Medium Activity", "High Activity", "Power Users"]

/-- `pd.cut(percentile, bins=[0,25,50,75,100], include_lowest=True)`: the
first interval is closed on both sides, the rest are left-open; anything
outside [0,100] falls in no segment. -/
def segmentOf (p : ℚ) : Option Segment :=
  if 0 ≤ p ∧ p ≤ 25 then some Segment.low
  else if 25 < p ∧ p ≤ 50 then some Segment.medium
  else if 50 < p ∧ p ≤ 75 then some Segment.high
  else if 75 < p ∧ p ≤ 100 then some Segment.power
  else none

/-- `df[df['segment'] == segment]`: the rows cut into one tier, in batch
order. -/
def segSlice (seg : Segment) : List RankedRow → List RankedRow
  | [] => []
  | r :: rest =>
      if segmentOf r.activity_score_percentile = some seg then
        r :: segSlice seg rest
      else segSlice seg rest

/-- The per-tier summary reported by `get_user_segmentation`. -/
structure SegmentStats where
  count : ℕ
  percentage : ℚ
  avg_sessions : PFloat
  avg_requests : PFloat
  avg_tokens : PFloat
  top_features : List (String × PFloat)
deriving DecidableEq

/-- `DataProcessor.get_user_segmentation`: empty input gives an empty
result; otherwise every one of the four tiers is reported, with its member
count, share of the population, column means (NaN over an empty tier) and
top-3 features. -/
def get_user_segmentation (rows : List RankedRow) :
    List (String × SegmentStats) :=
  if rows.isEmpty then []
  else
    let cols := featureCols rows
    segmentCats.map (fun seg =>
      let segRows := segSlice seg rows
      (segmentName seg,
        { count := segRows.length
          percentage := ((segRows.length : ℚ) / (rows.length : ℚ)) * 100
          avg_sessions := pmean (segRows.map (fun r => r.total_sessions))
          avg_requests := pmean (segRows.map (fun r => r.total_requests))
          avg_tokens := pmean (segRows.map (fun r => r.total_tokens))
          top_features := get_segment_top_features cols segRows }))

/-- One point of the daily series handed to `get_usage_trends`; the date is
an abstract sort key. -/
structure DailyPoint where
  date : ℕ
  value : ℚ
deriving DecidableEq

/-- One row of the trend DataFrame. -/
structure TrendRow where
  date : ℕ
  value : ℚ
  avg7 : ℚ
  trend : PFloat
deriving DecidableEq

/-- `df.sort_values('date')`: ascending sort by date.  The claims put no
constraint on duplicate-date order, so a stable insertion sort stands in
for pandas quicksort. -/
def sortByDate (l : List DailyPoint) : List DailyPoint :=
  List.insertionSort (fun a b => a.date ≤ b.date) l

instance : IsTotal DailyPoint (fun a b => a.date ≤ b.date) :=
  ⟨fun a b => Nat.le_total a.date b.date⟩

instance : IsTrans DailyPoint (fun a b => a.date ≤ b.date) :=
  ⟨fun _ _ _ hab hbc => Nat.le_trans hab hbc⟩

/-- `Series.rolling(window=7, min_periods=1).mean()`: at index `i` the mean
of the up-to-7 values ending at `i`. -/
def rolling7mean (vs : List ℚ) : List ℚ :=
  (List.range vs.length).map (fun i =>
    let w := (vs.take (i + 1)).drop (i + 1 - 7)
    w.sum / (w.length : ℚ))

/-- `Series.pct_change().fillna(0)`: NaN at the first index, otherwise the
relative change versus the previous value with pandas float semantics, then
every NaN (the first cell and any `0/0`) filled with 0. -/
def pctChange (vs : List ℚ) : List PFloat :=
  (List.range vs.length).map (fun i =>
    if i = 0 then fillna0 PFloat.nan
    else fillna0 (pdiv (vs.getD i 0 - vs.getD (i - 1) 0) (vs.getD (i - 1) 0)))

/-- `DataProcessor.get_usage_trends`: sort by date, attach the 7-day
trailing moving average and the period-over-period change. -/
def get_usage_trends (daily : List DailyPoint) : List TrendRow :=
  let s := sortByDate daily
  let vs := s.map (fun p => p.value)
  (s.zip ((rolling7mean vs).zip (pctChange vs))).map
    (fun p =>
      { date := p.1.date
        value := p.1.value
        avg7 := p.2.1
        trend := p.2.2 })

/-- The trailing average as the specification words it: the mean of the
current point (offset 0) and up to six preceding points, the window
shrinking to `i + 1` points at the start of the series and never containing
an index beyond `i`. -/
def trailingAvgSpec (vs : List ℚ) (i : ℕ) : ℚ :=
  let n := min (i + 1) 7
  ((List.range n).map (fun k => vs.getD (i - k) 0)).sum / (n : ℚ)

/-! ### Concrete batches used to exercise the pipeline -/

/-- A metrics payload whose `total_requests` is 7 and whose other fields are
absent (defaulting to 0). -/
def eqM : RawMetrics := { total_requests := some (PyVal.num 7) }

/-- Five users with identical metrics. -/
def fiveEqual : List (String × Option RawMetrics) :=
  [("u1", some eqM), ("u2", some eqM), ("u3", some eqM),
   ("u4", some eqM), ("u5", some eqM)]

/-- A well-formed metrics payload. -/
def goodM : RawMetrics :=
  { total_sessions := some (PyVal.num 10)
    total_requests := some (PyVal.num 100) }

/-- A malformed metrics payload: `total_sessions` holds a string, so the
derivation of `requests_per_session` raises a `TypeError`. -/
def badM : RawMetrics :=
  { total_sessions := some (PyVal.str "lots")
    total_requests := some (PyVal.num 5) }

/-- A usage event carrying a positive cost and no tokens at all. -/
def evA : RawUsageEvent :=
  { userEmail := "a", tokenUsage := some { totalCents := some 100 } }

/-- A fallback row for list indexing in closed statements. -/
def arbSpendingRow : SpendingRow :=
  { userEmail := "", cost_cents := 0, input_tokens := 0, output_tokens := 0
    cache_write_tokens := 0, cache_read_tokens := 0, is_premium_sum := 0
    is_subscription_sum := 0, cost_dollars := 0, total_tokens := 0
    cost_per_1k_tokens := PFloat.nan }

/-- A fallback ranked row for list indexing in closed statements. -/
def arbRankedRow : RankedRow :=
  { user_id := "", total_sessions := 0, total_requests := 0, total_tokens := 0
    unique_days_active := 0, avg_session_duration := 0, features := []
    requests_per_session := 0, tokens_per_request := 0, activity_score := 0
    total_sessions_percentile := 0, total_requests_percentile := 0
    total_tokens_percentile := 0, activity_score_percentile := 0 }

/-- The first output row of the five-identical-users batch. -/
def fiveEqualRow : RankedRow := (process_usage_data fiveEqual).headD arbRankedRow

/-- A usage event labelled `Usage-based`. -/
def evU : RawUsageEvent :=
  { userEmail := "u", kindLabel := some ("Usage-based") }

/-- A fallback event row for list indexing in closed statements. -/
def arbEventRow : EventRow :=
  { userEmail := "", cost_cents := 0, input_tokens := 0, output_tokens := 0
    cache_write_tokens := 0, cache_read_tokens := 0, request_type := none
    is_premium := false, is_subscription := false, model_used := none
    is_max_mode := false }

/-- The processed row of the `Usage-based` event. -/
def evURow : EventRow := (process_usage_events_data [evU]).headD arbEventRow

/-- Metrics of a user with 100 requests and some chat usage. -/
def segM1 : RawMetrics :=
  { total_requests := some (PyVal.num 100), feature_usage := [("chat", 3)] }

/-- Metrics of a user with 200 requests and some chat usage. -/
def segM2 : RawMetrics :=
  { total_requests := some (PyVal.num 200), feature_usage := [("chat", 5)] }

/-- A batch of exactly two users with distinct activity. -/
def segBatch : List (String × Option RawMetrics) :=
  [("u1", some segM1), ("u2", some segM2)]

/-- The processed two-user batch. -/
def twoUserRows : List RankedRow := process_usage_data segBatch

/-- The processed row of the first of the two users, written out. -/
def segRow1 : RankedRow :=
  { user_id := "u1", total_sessions := 0, total_requests := 100
    total_tokens := 0, unique_days_active := 0, avg_session_duration := 0
    features := [("chat", 3)], requests_per_session := 0
    tokens_per_request := 0, activity_score := 3
    total_sessions_percentile := 75, total_requests_percentile := 50
    total_tokens_percentile := 75, activity_score_percentile := 50 }

/-- The processed row of the second of the two users, written out. -/
def segRow2 : RankedRow :=
  { user_id := "u2", total_sessions := 0, total_requests := 200
    total_tokens := 0, unique_days_active := 0, avg_session_duration := 0
    features := [("chat", 5)], requests_per_session := 0
    tokens_per_request := 0, activity_score := 6
    total_sessions_percentile := 75, total_requests_percentile := 100
    total_tokens_percentile := 75, activity_score_percentile := 100 }

/-- Fallback tier statistics for list indexing in closed statements. -/
def arbSegStats : SegmentStats :=
  { count := 0, percentage := 0, avg_sessions := PFloat.nan
    avg_requests := PFloat.nan, avg_tokens := PFloat.nan, top_features := [] }

/-- The first (Low Activity) entry of the two-user segmentation. -/
def lowEntry : String × SegmentStats :=
  (get_user_segmentation twoUserRows).headD ("", arbSegStats)

/-- The merged users-and-usage table with emails a, b, c. -/
def exUsers : List MergedUserRow :=
  [{ name := "A", email := "a", total_requests := 30, total_tokens := 0
     total_sessions := 0 },
   { name := "B", email := "b", total_requests := 20, total_tokens := 0
     total_sessions := 0 },
   { name := "C", email := "c", total_requests := 10, total_tokens := 0
     total_sessions := 0 }]

/-- Usage events carrying spend for emails a and c only. -/
def exEvents : List EventRow :=
  process_usage_events_data
    [{ userEmail := "a", tokenUsage := some { totalCents := some 100 } },
     { userEmail := "c", tokenUsage := some { totalCents := some 50 } }]

/-- The joined top-users row of the unmatched email b. -/
def joinedRowB : TopUserRow :=
  (render_comprehensive_top_users exUsers exEvents).getD 1
    { name := "", email := "", total_requests := 0, total_tokens := 0
      total_sessions := 0, userEmail := none, cost_cents := PFloat.nan
      input_tokens := PFloat.nan, output_tokens := PFloat.nan
      model_used_count := PFloat.nan, cost_dollars := PFloat.nan
      event_tokens := PFloat.nan }

/-- The daily series 10, 20, 30 of the trend example. -/
def exSeries : List DailyPoint :=
  [{ date := 1, value := 10 }, { date := 2, value := 20 },
   { date := 3, value := 30 }]

/-- A fallback trend row for list indexing in closed statements. -/
def arbTrendRow : TrendRow :=
  { date := 0, value := 0, avg7 := 0, trend := PFloat.nan }

/-! ### Percentile ranking (claim C1) -/

/-- When every column value equals `v`, no value is strictly below `v` and
the whole column ties with `v`, so the average fractional rank is
`(n + 1) / (2 n)` and the reported percentile is a hundred times that. -/
theorem rankPct_const (xs : List ℚ) (v : ℚ) (hne : xs ≠ [])
    (hall : ∀ x ∈ xs, x = v) :
    rankPct xs v = ((xs.length : ℚ) + 1) / (2 * (xs.length : ℚ)) * 100 := by
  have hlt : xs.filter (fun x => decide (x < v)) = [] := by
    apply List.filter_eq_nil_iff.mpr
    intro a ha
    have h1 := hall a ha
    subst h1
    simp
  have heq : xs.filter (fun x => decide (x = v)) = xs := by
    apply List.filter_eq_self.mpr
    intro a ha
    simp [hall a ha]
  have hn : (xs.length : ℚ) ≠ 0 := by
    have h2 : xs.length ≠ 0 := by
      intro h0
      exact hne (List.length_eq_zero.mp h0)
    exact_mod_cast h2
  rw [rankPct, hlt, heq]
  simp only [List.length_nil, Nat.cast_zero]
  field_simp

/-- Helper: the computed output of `process_usage_data` in the successful
branch. -/
theorem process_usage_data_some (usage_data : List (String × Option RawMetrics))
    (rows : List UsageRow) (h : buildUsageRows usage_data = some rows) :
    process_usage_data usage_data = addPercentiles rows := by
  simp [process_usage_data, h]

/-- Helper: the empty output of `process_usage_data` in the raising branch. -/
theorem process_usage_data_none (usage_data : List (String × Option RawMetrics))
    (h : buildUsageRows usage_data = none) :
    process_usage_data usage_data = [] := by
  simp [process_usage_data, h]

/-- C1 (counterexample): a batch of five users with identical
`total_requests` receives percentile rank 60.0 for that metric, not the
50.0 the claim states. -/
theorem percentile_five_ties_ne_fifty :
    ((process_usage_data fiveEqual).map
        (fun r => r.total_requests_percentile)) = [60, 60, 60, 60, 60] ∧
      (60 : ℚ) ≠ 50 := by
  constructor
  · simp [process_usage_data, buildUsageRows, deriveUsageRow, safeRatio, mget, pyGtZero,
      pyDiv, asNum, addPercentiles, rankPct, fiveEqual, eqM, List.filter]
    norm_num
  · norm_num

/-- C1 (amended): in every batch in which all processed users carry the same
value of the ranked metric `total_requests`, each user's percentile rank for
it is `(N + 1) / (2 N) · 100` — the average fractional rank of the full tie
group over the batch size — which is 60.0 for N = 5, not 50.0. -/
theorem percentile_all_ties_average_rank
    (usage_data : List (String × Option RawMetrics)) (row : RankedRow)
    (hmem : row ∈ process_usage_data usage_data)
    (hall : ∀ r2 ∈ process_usage_data usage_data,
      r2.total_requests = row.total_requests) :
    row.total_requests_percentile =
      (((process_usage_data usage_data).length : ℚ) + 1) /
        (2 * ((process_usage_data usage_data).length : ℚ)) * 100 := by
  rcases hbuild : buildUsageRows usage_data with _ | rows
  · rw [process_usage_data_none usage_data hbuild] at hmem
    simp at hmem
  · rw [process_usage_data_some usage_data rows hbuild] at hmem hall ⊢
    simp only [addPercentiles, List.mem_map] at hmem
    obtain ⟨r, hr, rfl⟩ := hmem
    have hxs : ∀ x ∈ rows.map (fun x => x.total_requests),
        x = r.total_requests := by
      intro x hx
      obtain ⟨r3, hr3, rfl⟩ := List.mem_map.mp hx
      have := hall _ (List.mem_map.mpr ⟨r3, hr3, rfl⟩)
      exact this
    have hne : rows.map (fun x => x.total_requests) ≠ [] := by
      intro h0
      have : rows = [] := by
        cases rows with
        | nil => rfl
        | cons a l => simp at h0
      subst this
      simp at hr
    have := rankPct_const (rows.map (fun x => x.total_requests))
      r.total_requests hne hxs
    simpa [addPercentiles] using this

/-- C1 witness: the five-identical-users batch instantiates the amended
statement, giving percentile (5+1)/(2·5)·100 = 60 for its first row. -/
theorem percentile_all_ties_average_rank_witness :
    (fiveEqualRow ∈ process_usage_data fiveEqual) ∧
      (∀ r2 ∈ process_usage_data fiveEqual,
        r2.total_requests = fiveEqualRow.total_requests) ∧
      fiveEqualRow.total_requests_percentile =
        (((process_usage_data fiveEqual).length : ℚ) + 1) /
          (2 * ((process_usage_data fiveEqual).length : ℚ)) * 100 :=
  ⟨by simp [fiveEqualRow, process_usage_data, buildUsageRows, deriveUsageRow, safeRatio,
      mget, pyGtZero, pyDiv, asNum, addPercentiles, rankPct, fiveEqual, eqM,
      List.filter],
    by simp [fiveEqualRow, process_usage_data, buildUsageRows, deriveUsageRow, safeRatio,
      mget, pyGtZero, pyDiv, asNum, addPercentiles, rankPct, fiveEqual, eqM,
      List.filter],
    percentile_all_ties_average_rank fiveEqual fiveEqualRow
      (by simp [fiveEqualRow, process_usage_data, buildUsageRows,
        deriveUsageRow, safeRatio, mget, pyGtZero, pyDiv, asNum, addPercentiles, rankPct,
        fiveEqual, eqM, List.filter])
      (by simp [fiveEqualRow, process_usage_data, buildUsageRows,
        deriveUsageRow, safeRatio, mget, pyGtZero, pyDiv, asNum, addPercentiles, rankPct,
        fiveEqual, eqM, List.filter])⟩

/-! ### Division-by-zero policy (claim C2) -/

/-- C2 (code evaluated at the failing input): a user whose events carry a
positive cost (100 cents) and zero tokens gets `cost_per_1k_tokens` equal to
positive infinity, not 0 — `fillna(0)` replaces only the NaN of `0/0`, not
the infinity of `positive/0`. -/
theorem cost_per_1k_tokens_inf_on_zero_tokens :
    ((get_individual_spending_analysis (process_usage_events_data [evA])).map
        (fun r => r.cost_per_1k_tokens)) = [PFloat.inf] ∧
      PFloat.inf ≠ PFloat.fin 0 := by
  constructor
  · simp [get_individual_spending_analysis, process_usage_events_data, evA,
      eventRequestType, eventModelUsed, uniqueKeys, spendingRowFor,
      filterByEmail, sortDescBy, insertDescBy, fillna0, pdiv, List.filter]
  · simp

/-! ### Malformed record handling (claim C7) -/

/-- C7 (code evaluated at the failing input): one record whose
`total_sessions` holds a string makes `process_usage_data` return an empty
result, discarding the valid record that precedes it, whereas the same batch
without the malformed record yields one row. -/
theorem malformed_record_empties_batch :
    process_usage_data [("u1", some goodM), ("u2", some badM)] = [] ∧
      (process_usage_data [("u1", some goodM)]).length = 1 := by
  constructor
  · simp [process_usage_data, buildUsageRows, deriveUsageRow, safeRatio, mget, pyGtZero,
      pyDiv, asNum, goodM, badM]
  · simp [process_usage_data, buildUsageRows, deriveUsageRow, safeRatio, mget, pyGtZero,
      pyDiv, asNum, addPercentiles, goodM]

/-! ### Activity score formula (claim C5) -/

/-- The code's score computation and the specification's formula coincide
definitionally once the let-bound weights are inlined. -/
theorem calc_eq_spec (ts tr tk da dur : ℚ) :
    calculate_activity_score ts tr tk da dur =
      activityScoreSpec ts tr tk da dur := rfl

/-- A row produced by the loop body carries exactly the score computed from
its own five base metrics. -/
theorem deriveUsageRow_score (uid : String) (m : RawMetrics) (r : UsageRow)
    (h : deriveUsageRow uid m = some r) :
    r.activity_score = calculate_activity_score r.total_sessions
      r.total_requests r.total_tokens r.unique_days_active
      r.avg_session_duration := by
  simp only [deriveUsageRow, bind, Option.bind_eq_some, Option.pure_def,
    Option.some.injEq] at h
  obtain ⟨rps, hrps, tpr, htpr, tsq, htsq, trq, htrq, tkq, htkq, daq, hdaq,
    durq, hdurq, hr⟩ := h
  subst hr
  rfl

/-- Every row of a successfully built batch carries the score of its own
metrics. -/
theorem buildUsageRows_score (l : List (String × Option RawMetrics))
    (rows : List UsageRow) (h : buildUsageRows l = some rows) :
    ∀ r ∈ rows, r.activity_score = calculate_activity_score r.total_sessions
      r.total_requests r.total_tokens r.unique_days_active
      r.avg_session_duration := by
  induction l generalizing rows with
  | nil =>
      simp only [buildUsageRows, Option.some.injEq] at h
      subst h
      intro r hr
      simp at hr
  | cons hd tl ih =>
      obtain ⟨uid, data⟩ := hd
      cases data with
      | none =>
          exact ih rows h
      | some m =>
          simp only [buildUsageRows, bind, Option.bind_eq_some,
            Option.pure_def, Option.some.injEq] at h
          obtain ⟨r0, hr0, rs, hrs, hrows⟩ := h
          subst hrows
          intro r hr
          rcases List.mem_cons.mp hr with h1 | h1
          · subst h1
            exact deriveUsageRow_score uid m r hr0
          · exact ih rs hrs r h1

/-- C5: every normalized usage row's `activity_score` equals the fixed
specification formula (min-max normalization against caps 100, 1000,
100000, 30, 300 capped at 1.0, weights 0.2, 0.3, 0.2, 0.2, 0.1, times 100,
rounded to two decimal places) applied to its own base metrics. -/
theorem activity_score_matches_spec
    (usage_data : List (String × Option RawMetrics)) (row : RankedRow)
    (hmem : row ∈ process_usage_data usage_data) :
    row.activity_score = activityScoreSpec row.total_sessions
      row.total_requests row.total_tokens row.unique_days_active
      row.avg_session_duration := by
  rcases hbuild : buildUsageRows usage_data with _ | rows
  · rw [process_usage_data_none usage_data hbuild] at hmem
    simp at hmem
  · rw [process_usage_data_some usage_data rows hbuild] at hmem
    simp only [addPercentiles, List.mem_map] at hmem
    obtain ⟨r, hr, rfl⟩ := hmem
    have h2 := buildUsageRows_score usage_data rows hbuild r hr
    rw [← calc_eq_spec]
    exact h2

/-- C5 witness: the first row of the five-identical-users batch. -/
theorem activity_score_matches_spec_witness :
    (fiveEqualRow ∈ process_usage_data fiveEqual) ∧
      fiveEqualRow.activity_score = activityScoreSpec
        fiveEqualRow.total_sessions fiveEqualRow.total_requests
        fiveEqualRow.total_tokens fiveEqualRow.unique_days_active
        fiveEqualRow.avg_session_duration :=
  ⟨by simp [fiveEqualRow, process_usage_data, buildUsageRows, deriveUsageRow,
      safeRatio, mget, pyGtZero, pyDiv, asNum, addPercentiles, rankPct,
      fiveEqual, eqM, List.filter],
    activity_score_matches_spec fiveEqual fiveEqualRow
      (by simp [fiveEqualRow, process_usage_data, buildUsageRows,
        deriveUsageRow, safeRatio, mget, pyGtZero, pyDiv, asNum,
        addPercentiles, rankPct, fiveEqual, eqM, List.filter])⟩

/-! ### Productivity score and daily-usage defaults (claim C8) -/

/-- C8: every processed daily record's `productivity_score` is
`(totalAccepts / totalApplies) * (totalTabsAccepted / totalTabsShown)` with
each zero divisor replaced by 1; missing `totalApplies` and `totalTabsShown`
default to 1 while the other missing numeric fields default to 0; and a row
with zero accepts (in particular the all-missing record) scores 0 rather
than raising a division error. -/
theorem productivity_score_safe_division (r : RawDailyRecord) :
    ((processDailyRecord r).productivity_score =
      ((processDailyRecord r).totalAccepts /
        (if (processDailyRecord r).totalApplies = 0 then 1
         else (processDailyRecord r).totalApplies)) *
      ((processDailyRecord r).totalTabsAccepted /
        (if (processDailyRecord r).totalTabsShown = 0 then 1
         else (processDailyRecord r).totalTabsShown))) ∧
    (r.totalApplies = none → (processDailyRecord r).totalApplies = 1) ∧
    (r.totalTabsShown = none → (processDailyRecord r).totalTabsShown = 1) ∧
    (r.totalAccepts = none → (processDailyRecord r).totalAccepts = 0) ∧
    (r.totalTabsAccepted = none →
      (processDailyRecord r).totalTabsAccepted = 0) ∧
    (r.subscriptionIncludedReqs = none →
      (processDailyRecord r).subscriptionIncludedReqs = 0) ∧
    (r.usageBasedReqs = none → (processDailyRecord r).usageBasedReqs = 0) ∧
    (r.apiKeyReqs = none → (processDailyRecord r).apiKeyReqs = 0) ∧
    (r.chatRequests = none → (processDailyRecord r).chatRequests = 0) ∧
    (r.composerRequests = none → (processDailyRecord r).composerRequests = 0) ∧
    ((processDailyRecord r).totalAccepts = 0 →
      (processDailyRecord r).productivity_score = 0) := by
  refine ⟨?_, ?_, ?_, ?_, ?_, ?_, ?_, ?_, ?_, ?_, ?_⟩
  · simp [processDailyRecord, replaceZeroOne]
  · intro h
    simp [processDailyRecord, h]
  · intro h
    simp [processDailyRecord, h]
  · intro h
    simp [processDailyRecord, h]
  · intro h
    simp [processDailyRecord, h]
  · intro h
    simp [processDailyRecord, h]
  · intro h
    simp [processDailyRecord, h]
  · intro h
    simp [processDailyRecord, h]
  · intro h
    simp [processDailyRecord, h]
  · intro h
    simp [processDailyRecord, h]
  · intro h
    simp only [processDailyRecord] at h ⊢
    rw [h]
    simp

/-- C8 witness: the record with every field missing defaults its divisors to
1, its accepts to 0, and scores a well-defined 0. -/
theorem productivity_score_safe_division_witness :
    (({} : RawDailyRecord).totalApplies = none) ∧
      ((processDailyRecord {}).totalApplies = 1) ∧
      ((processDailyRecord {}).totalAccepts = 0) ∧
      ((processDailyRecord {}).productivity_score = 0) := by
  have h := productivity_score_safe_division {}
  exact ⟨rfl, h.2.1 rfl, by simp [processDailyRecord],
    h.2.2.2.2.2.2.2.2.2.2 (by simp [processDailyRecord])⟩

/-! ### Premium versus subscription flags (claim C9) -/

/-- C9: on every processed usage event the `is_premium` and
`is_subscription` flags are mutually exclusive: the former holds exactly on
request type `Usage-based`, the latter exactly on `Included in Business`,
and both are false for any other request type. -/
theorem premium_subscription_exclusive (events : List RawUsageEvent)
    (row : EventRow) (h : row ∈ process_usage_events_data events) :
    (¬(row.is_premium = true ∧ row.is_subscription = true)) ∧
      (row.is_premium = true ↔ row.request_type = some ("Usage-based")) ∧
      (row.is_subscription = true ↔
        row.request_type = some ("Included in Business")) := by
  simp only [process_usage_events_data, List.mem_map] at h
  obtain ⟨e, he, rfl⟩ := h
  refine ⟨?_, ?_, ?_⟩
  · intro hc
    obtain ⟨h1, h2⟩ := hc
    simp only [decide_eq_true_eq] at h1 h2
    rw [h1] at h2
    simp at h2
  · simp
  · simp

/-- C9 witness: the `Usage-based` event's row is premium and not both
premium and subscription. -/
theorem premium_subscription_exclusive_witness :
    (evURow ∈ process_usage_events_data [evU]) ∧
      (¬(evURow.is_premium = true ∧ evURow.is_subscription = true)) :=
  ⟨by simp [evURow, process_usage_events_data, evU, eventRequestType,
      eventModelUsed],
    (premium_subscription_exclusive [evU] evURow
      (by simp [evURow, process_usage_events_data, evU, eventRequestType,
        eventModelUsed])).1⟩

/-! ### Segmentation (claims C4 and C10) -/

/-- Helper evaluation: the activity score of a user with 100 requests and
nothing else. -/
theorem score_of_100_requests : calculate_activity_score 0 100 0 0 0 = 3 := by
  norm_num [calculate_activity_score, round2, roundHalfEven, min_def]

/-- Helper evaluation: the activity score of a user with 200 requests and
nothing else. -/
theorem score_of_200_requests : calculate_activity_score 0 200 0 0 0 = 6 := by
  norm_num [calculate_activity_score, round2, roundHalfEven, min_def]

/-- The two-user batch evaluates to the two explicit rows: the activity
scores are 3 and 6, so the score percentiles are 50 and 100. -/
theorem twoUserRows_explicit : twoUserRows = [segRow1, segRow2] := by
  norm_num [twoUserRows, segBatch, segM1, segM2, process_usage_data,
    buildUsageRows, deriveUsageRow, safeRatio, mget, pyGtZero, pyDiv, asNum,
    addPercentiles, rankPct, score_of_100_requests, score_of_200_requests,
    List.filter, segRow1, segRow2]

/-- Percentile 50 cuts into the Medium Activity tier. -/
theorem segOf50 : segmentOf 50 = some Segment.medium := by
  norm_num [segmentOf]

/-- Percentile 100 cuts into the Power Users tier. -/
theorem segOf100 : segmentOf 100 = some Segment.power := by
  norm_num [segmentOf]

/-- C4: on every non-empty batch the segmentation reports all four tiers,
in order, and a tier with zero members is reported with percentage 0 rather
than omitted. -/
theorem segmentation_four_tiers_zero_reported (rows : List RankedRow)
    (h : rows ≠ []) :
    ((get_user_segmentation rows).map (fun e => e.1)) = segmentLabels ∧
      (∀ e ∈ get_user_segmentation rows,
        e.2.count = 0 → e.2.percentage = 0) := by
  have hne : rows.isEmpty = false := by
    cases rows with
    | nil => exact absurd rfl h
    | cons a l => rfl
  constructor
  · simp [get_user_segmentation, hne, segmentCats, segmentName, segmentLabels]
  · intro e he hc
    simp only [get_user_segmentation, hne, Bool.false_eq_true, if_false,
      List.mem_map] at he
    obtain ⟨seg, hseg, rfl⟩ := he
    have hc2 : (segSlice seg rows).length = 0 := hc
    show ((segSlice seg rows).length : ℚ) / (rows.length : ℚ) * 100 = 0
    rw [hc2]
    simp

/-- C4 witness: the two-user batch is non-empty, all four tiers are
reported, the Low Activity and High Activity tiers have zero members and
percentage 0, the other two hold one user (50 percent) each. -/
theorem segmentation_four_tiers_zero_reported_witness :
    (twoUserRows ≠ []) ∧
      (((get_user_segmentation twoUserRows).map (fun e => e.1)) =
          segmentLabels ∧
        (∀ e ∈ get_user_segmentation twoUserRows,
          e.2.count = 0 → e.2.percentage = 0)) ∧
      ((get_user_segmentation twoUserRows).map (fun e => (e.1, e.2.count))) =
        [("Low Activity", 0), ("Medium Activity", 1), ("High Activity", 0),
         ("Power Users", 1)] ∧
      ((get_user_segmentation twoUserRows).map (fun e => e.2.percentage)) =
        [0, 50, 0, 50] :=
  ⟨by rw [twoUserRows_explicit]; simp,
    segmentation_four_tiers_zero_reported twoUserRows
      (by rw [twoUserRows_explicit]; simp),
    by
      rw [twoUserRows_explicit]
      simp +decide [get_user_segmentation, segmentCats, segmentName, segSlice,
        segRow1, segRow2, segOf50, segOf100],
    by
      rw [twoUserRows_explicit]
      simp +decide [get_user_segmentation, segmentCats, segmentName, segSlice,
        segRow1, segRow2, segOf50, segOf100]
      norm_num⟩

/-- Comparison with a NaN key on the left is always false. -/
theorem pfGtB_nan_left (x : PFloat) : pfGtB PFloat.nan x = false := by
  cases x <;> rfl

/-- Inserting into a list whose keys are all NaN puts the new element in
front: no comparison fires, as in CPython's sort. -/
theorem insertDescBy_all_nan {α : Type} (key : α → PFloat) (a : α)
    (l : List α) (hl : ∀ p ∈ l, key p = PFloat.nan) :
    insertDescBy key a l = a :: l := by
  cases l with
  | nil => rfl
  | cons b rest =>
      have hb : key b = PFloat.nan := hl b (List.mem_cons_self b rest)
      simp [insertDescBy, hb, pfGtB_nan_left]

/-- Sorting a list whose keys are all NaN leaves it unchanged. -/
theorem sortDescBy_all_nan {α : Type} (key : α → PFloat) (l : List α)
    (hl : ∀ p ∈ l, key p = PFloat.nan) : sortDescBy key l = l := by
  induction l with
  | nil => rfl
  | cons a rest ih =>
      have hr : ∀ p ∈ rest, key p = PFloat.nan :=
        fun p hp => hl p (List.mem_cons_of_mem a hp)
      rw [sortDescBy, ih hr, insertDescBy_all_nan key a rest hr]

/-- C10 (amended): a zero-count tier reports NaN (an empty mean) for its
three averages, percentage 0, and as top features the first three feature
columns of the batch each paired with a NaN mean — an empty list only when
the batch has no feature columns at all. -/
theorem empty_tier_stats (rows : List RankedRow) (e : String × SegmentStats)
    (he : e ∈ get_user_segmentation rows) (hc : e.2.count = 0) :
    e.2.avg_sessions = PFloat.nan ∧ e.2.avg_requests = PFloat.nan ∧
      e.2.avg_tokens = PFloat.nan ∧ e.2.percentage = 0 ∧
      e.2.top_features =
        ((featureCols rows).map (fun f => (f, PFloat.nan))).take 3 := by
  rcases hrows : rows.isEmpty with _ | _
  · simp only [get_user_segmentation, hrows, Bool.false_eq_true, if_false,
      List.mem_map] at he
    obtain ⟨seg, hseg, rfl⟩ := he
    have hsl : segSlice seg rows = [] :=
      List.length_eq_zero.mp hc
    refine ⟨?_, ?_, ?_, ?_, ?_⟩
    · show pmean ((segSlice seg rows).map (fun r => r.total_sessions)) =
        PFloat.nan
      rw [hsl]
      rfl
    · show pmean ((segSlice seg rows).map (fun r => r.total_requests)) =
        PFloat.nan
      rw [hsl]
      rfl
    · show pmean ((segSlice seg rows).map (fun r => r.total_tokens)) =
        PFloat.nan
      rw [hsl]
      rfl
    · show ((segSlice seg rows).length : ℚ) / (rows.length : ℚ) * 100 = 0
      rw [hsl]
      simp
    · show get_segment_top_features (featureCols rows) (segSlice seg rows) =
        ((featureCols rows).map (fun f => (f, PFloat.nan))).take 3
      rw [hsl, get_segment_top_features]
      have hmap : (featureCols rows).map (fun f => (f, featureMean [] f)) =
          (featureCols rows).map (fun f => (f, PFloat.nan)) := by
        simp [featureMean, pmean]
      rw [hmap, sortDescBy_all_nan]
      intro p hp
      obtain ⟨f, hf, rfl⟩ := List.mem_map.mp hp
      rfl
  · rw [get_user_segmentation, hrows] at he
    simp at he

/-- C10 (counterexample): in the two-user batch with chat usage, the empty
Low Activity tier reports NaN averages but its top-features list is
`[("chat", NaN)]`, not the empty list the claim states. -/
theorem empty_tier_top_features_nonempty :
    lowEntry.1 = "Low Activity" ∧ lowEntry.2.count = 0 ∧
      lowEntry.2.avg_sessions = PFloat.nan ∧
      lowEntry.2.top_features = [("chat", PFloat.nan)] ∧
      ¬(lowEntry.2.top_features = ([] : List (String × PFloat))) := by
  have h : lowEntry =
      ((get_user_segmentation [segRow1, segRow2]).headD ("", arbSegStats)) := by
    rw [lowEntry, twoUserRows_explicit]
  rw [h]
  simp +decide [get_user_segmentation, segmentCats, segmentName, segSlice,
    segRow1, segRow2, segOf50, segOf100, featureCols, uniqueKeys,
    get_segment_top_features, featureMean, lookupFeature, pmean,
    sortDescBy, insertDescBy, pfGtB]

/-- C10 witness: the amended statement instantiated at the Low Activity
entry of the two-user batch. -/
theorem empty_tier_stats_witness :
    (lowEntry ∈ get_user_segmentation twoUserRows) ∧
      (lowEntry.2.count = 0) ∧
      (lowEntry.2.avg_sessions = PFloat.nan ∧
        lowEntry.2.avg_requests = PFloat.nan ∧
        lowEntry.2.avg_tokens = PFloat.nan ∧ lowEntry.2.percentage = 0 ∧
        lowEntry.2.top_features =
          ((featureCols twoUserRows).map (fun f => (f, PFloat.nan))).take 3) :=
  ⟨by
    rw [lowEntry, twoUserRows_explicit]
    simp +decide [get_user_segmentation, segmentCats, segmentName, segSlice,
      segRow1, segRow2, segOf50, segOf100, featureCols, uniqueKeys,
      get_segment_top_features, featureMean, lookupFeature, pmean,
      sortDescBy, insertDescBy, pfGtB],
    by
    rw [lowEntry, twoUserRows_explicit]
    simp +decide [get_user_segmentation, segmentCats, segmentName, segSlice,
      segRow1, segRow2, segOf50, segOf100, featureCols, uniqueKeys,
      get_segment_top_features, featureMean, lookupFeature, pmean,
      sortDescBy, insertDescBy, pfGtB],
    empty_tier_stats twoUserRows lowEntry
      (by
        rw [lowEntry, twoUserRows_explicit]
        simp +decide [get_user_segmentation, segmentCats, segmentName,
          segSlice, segRow1, segRow2, segOf50, segOf100, featureCols,
          uniqueKeys, get_segment_top_features, featureMean, lookupFeature,
          pmean, sortDescBy, insertDescBy, pfGtB])
      (by
        rw [lowEntry, twoUserRows_explicit]
        simp +decide [get_user_segmentation, segmentCats, segmentName,
          segSlice, segRow1, segRow2, segOf50, segOf100, featureCols,
          uniqueKeys, get_segment_top_features, featureMean, lookupFeature,
          pmean, sortDescBy, insertDescBy, pfGtB])⟩

/-! ### Trend analysis (claim C6) -/

/-- The date sort is ascending. -/
theorem sortByDate_sorted (l : List DailyPoint) :
    (sortByDate l).Pairwise (fun a b => a.date ≤ b.date) :=
  List.sorted_insertionSort _ l

/-- The date sort is a permutation of its input: unsorted input is sorted,
not rejected. -/
theorem sortByDate_perm (l : List DailyPoint) :
    (sortByDate l).Perm l :=
  List.perm_insertionSort _ l

/-- The rolling window at index `i` — the last up-to-7 values of the prefix
ending at `i` — is the reverse of the current value followed by its up to
six predecessors. -/
theorem window_eq (vs : List ℚ) (i : ℕ) (h : i < vs.length) :
    (vs.take (i + 1)).drop (i + 1 - 7) =
      ((List.range (min (i + 1) 7)).map
        (fun k => vs.getD (i - k) 0)).reverse := by
  apply List.ext_getElem
  · simp
    omega
  · intro j h1 h2
    simp only [List.getElem_drop, List.getElem_take, List.getElem_reverse,
      List.getElem_map, List.getElem_range, List.length_reverse,
      List.length_map, List.length_range]
    have hlen : (vs.take (i + 1)).length = i + 1 := by
      simp
      omega
    have hj : j < min (i + 1) 7 := by
      simpa [hlen] using h2
    have hidx : i - (min (i + 1) 7 - 1 - j) = i + 1 - 7 + j := by omega
    rw [hidx]
    rw [List.getD_eq_getElem]

/-- The rolling mean at index `i` equals the specification's trailing
average: the mean of the point and its up to six predecessors, never a
point after `i`. -/
theorem rolling7mean_spec (vs : List ℚ) (i : ℕ)
    (h : i < (rolling7mean vs).length) :
    (rolling7mean vs)[i] = trailingAvgSpec vs i := by
  have hv : i < vs.length := by simpa [rolling7mean] using h
  simp only [rolling7mean, List.getElem_map, List.getElem_range]
  rw [window_eq vs i hv]
  simp [trailingAvgSpec, List.sum_reverse]

/-- Mapping a function of the first components over a zip with a list at
least as long projects the zip away. -/
theorem zip_map_fst {α β γ : Type} (f : α → γ) (l1 : List α) (l2 : List β)
    (h : l1.length ≤ l2.length) :
    (l1.zip l2).map (fun p => f p.1) = l1.map f := by
  induction l1 generalizing l2 with
  | nil => rfl
  | cons a l1 ih =>
      cases l2 with
      | nil => simp at h
      | cons b l2 =>
          simp only [List.zip_cons_cons, List.map_cons]
          rw [ih l2 (by simpa using h)]

/-- The rolling-mean column has one entry per value. -/
theorem length_rolling7mean (vs : List ℚ) :
    (rolling7mean vs).length = vs.length := by
  simp [rolling7mean]

/-- The percent-change column has one entry per value. -/
theorem length_pctChange (vs : List ℚ) :
    (pctChange vs).length = vs.length := by
  simp [pctChange]

/-- The trend table has one row per input point. -/
theorem length_get_usage_trends (daily : List DailyPoint) :
    (get_usage_trends daily).length = (sortByDate daily).length := by
  simp [get_usage_trends, length_rolling7mean, length_pctChange]

/-- C6: `get_usage_trends` sorts its input ascending by date (a permutation
of the input, not a rejection), attaches at every index the 7-day trailing
moving average of the sorted series — the mean of that point and up to six
preceding points, the window shrinking at the series start and never
looking ahead — and defines the first point's period-over-period change as
0. -/
theorem usage_trends_spec (daily : List DailyPoint) :
    ((get_usage_trends daily).map (fun r => r.date)).Pairwise
        (fun a b => a ≤ b) ∧
      ((get_usage_trends daily).map (fun r => (r.date, r.value))).Perm
        (daily.map (fun p => (p.date, p.value))) ∧
      (∀ i, (h : i < (get_usage_trends daily).length) →
        ((get_usage_trends daily)[i].avg7 =
          trailingAvgSpec ((sortByDate daily).map (fun p => p.value)) i) ∧
        (i = 0 → (get_usage_trends daily)[i].trend = PFloat.fin 0)) := by
  have hz : ((sortByDate daily).map (fun p => p.value)).length ≤
      ((rolling7mean ((sortByDate daily).map (fun p => p.value))).zip
        (pctChange ((sortByDate daily).map (fun p => p.value)))).length := by
    simp [List.length_zip, length_rolling7mean, length_pctChange]
  have hz2 : (sortByDate daily).length ≤
      ((rolling7mean ((sortByDate daily).map (fun p => p.value))).zip
        (pctChange ((sortByDate daily).map (fun p => p.value)))).length := by
    simpa using hz
  refine ⟨?_, ?_, ?_⟩
  · have h1 : (get_usage_trends daily).map (fun r => r.date) =
        (sortByDate daily).map (fun p => p.date) := by
      rw [get_usage_trends]
      rw [List.map_map]
      exact zip_map_fst (fun q => q.date) _ _ hz2
    rw [h1]
    exact List.pairwise_map.mpr (sortByDate_sorted daily)
  · have h2 : (get_usage_trends daily).map (fun r => (r.date, r.value)) =
        (sortByDate daily).map (fun p => (p.date, p.value)) := by
      rw [get_usage_trends]
      rw [List.map_map]
      exact zip_map_fst (fun q => (q.date, q.value)) _ _ hz2
    rw [h2]
    exact (sortByDate_perm daily).map _
  · intro i h
    have hs : i < (sortByDate daily).length := by
      rw [← length_get_usage_trends daily]
      exact h
    have hv : i < ((sortByDate daily).map (fun p => p.value)).length := by
      simpa using hs
    have hA : i < (rolling7mean
        ((sortByDate daily).map (fun p => p.value))).length := by
      rw [length_rolling7mean]
      exact hv
    have hT : i < (pctChange
        ((sortByDate daily).map (fun p => p.value))).length := by
      rw [length_pctChange]
      exact hv
    have hout : (get_usage_trends daily)[i] =
        { date := ((sortByDate daily)[i]).date
          value := ((sortByDate daily)[i]).value
          avg7 := (rolling7mean
            ((sortByDate daily).map (fun p => p.value)))[i]
          trend := (pctChange
            ((sortByDate daily).map (fun p => p.value)))[i] } := by
      simp only [get_usage_trends, List.getElem_map, List.getElem_zip]
    constructor
    · rw [hout]
      exact rolling7mean_spec _ i hA
    · intro h0
      subst h0
      rw [hout]
      simp [pctChange, List.getElem_map, List.getElem_range, fillna0]

/-- Helper evaluation: the 7-day trailing averages of the series
10, 20, 30. -/
theorem trends_eval :
    ((get_usage_trends exSeries).map (fun r => r.avg7)) = [10, 15, 20] := by
  norm_num [get_usage_trends, exSeries, sortByDate, List.insertionSort,
    List.orderedInsert, rolling7mean, pctChange, List.range_succ, pdiv,
    fillna0]

/-- Helper evaluation: the period-over-period changes of the series
10, 20, 30 — the first defined as 0. -/
theorem trends_eval2 :
    ((get_usage_trends exSeries).map (fun r => r.trend)) =
      [PFloat.fin 0, PFloat.fin 1, PFloat.fin (1/2)] := by
  norm_num [get_usage_trends, exSeries, sortByDate, List.insertionSort,
    List.orderedInsert, rolling7mean, pctChange, List.range_succ, pdiv,
    fillna0]

/-- C6 witness: on the series 10, 20, 30 the trailing averages are
10.0, 15.0, 20.0 and the first point's change is 0. -/
theorem usage_trends_spec_witness :
    (0 < (get_usage_trends exSeries).length) ∧
      ((get_usage_trends exSeries).map (fun r => r.avg7) = [10, 15, 20]) ∧
      (((get_usage_trends exSeries).getD 0 arbTrendRow).trend =
        PFloat.fin 0) := by
  have hlen : 0 < (get_usage_trends exSeries).length := by
    norm_num [length_get_usage_trends, sortByDate, List.insertionSort,
      List.orderedInsert, exSeries]
  refine ⟨hlen, trends_eval, ?_⟩
  have h2 := ((usage_trends_spec exSeries).2.2 0 hlen).2 rfl
  rw [List.getD_eq_getElem]
  exact h2

/-! ### Left join of user and spend aggregates (claim C3) -/

/-- Any member of the groupby fold is in the accumulator or the input. -/
theorem mem_foldl_uniq (l : List String) :
    ∀ (acc : List String) (x : String),
      x ∈ l.foldl (fun acc e => if e ∈ acc then acc else acc ++ [e]) acc →
        x ∈ acc ∨ x ∈ l := by
  induction l with
  | nil =>
      intro acc x h
      exact Or.inl h
  | cons e rest ih =>
      intro acc x h
      rw [List.foldl_cons] at h
      rcases ih _ x h with h1 | h1
      · by_cases he : e ∈ acc
        · rw [if_pos he] at h1
          exact Or.inl h1
        · rw [if_neg he] at h1
          rcases List.mem_append.mp h1 with h2 | h2
          · exact Or.inl h2
          · simp only [List.mem_singleton] at h2
            subst h2
            exact Or.inr (List.mem_cons_self x rest)
      · exact Or.inr (List.mem_cons_of_mem e h1)

/-- Every groupby key comes from the input column. -/
theorem mem_uniqueKeys (x : String) (l : List String)
    (h : x ∈ uniqueKeys l) : x ∈ l := by
  rcases mem_foldl_uniq l [] x h with h1 | h1
  · simp at h1
  · exact h1

/-- Every spend-aggregate row's email occurs among the events. -/
theorem spendAgg_userEmail (events : List EventRow) (s : SpendAggRow)
    (h : s ∈ spendAgg events) : ∃ e ∈ events, e.userEmail = s.userEmail := by
  simp only [spendAgg, List.mem_map] at h
  obtain ⟨em, hem, rfl⟩ := h
  have h2 : em ∈ events.map (fun r => r.userEmail) :=
    mem_uniqueKeys em _ hem
  obtain ⟨e, he, hee⟩ := List.mem_map.mp h2
  exact ⟨e, he, hee⟩

/-- A found spend row is a spend row carrying the joined key. -/
theorem findSpendByEmail_some (em : String) (l : List SpendAggRow)
    (s : SpendAggRow) (h : findSpendByEmail em l = some s) :
    s ∈ l ∧ s.userEmail = em := by
  induction l with
  | nil => simp [findSpendByEmail] at h
  | cons a rest ih =>
      rw [findSpendByEmail] at h
      by_cases ha : a.userEmail = em
      · rw [if_pos ha] at h
        have h3 := Option.some.inj h
        subst h3
        exact ⟨List.mem_cons_self a rest, ha⟩
      · rw [if_neg ha] at h
        obtain ⟨h1, h2⟩ := ih h
        exact ⟨List.mem_cons_of_mem a h1, h2⟩

/-- C3 (amended): on every joined top-users row whose email matches no
event, the two `fillna(0)` columns `cost_dollars` and `event_tokens` are 0,
while the other right-side numeric fields — `cost_cents`, `input_tokens`,
`output_tokens` and the `model_used` count — remain null (NaN), not 0. -/
theorem left_join_unmatched_fill (merged : List MergedUserRow)
    (events : List EventRow) (row : TopUserRow)
    (hmem : row ∈ render_comprehensive_top_users merged events)
    (hno : ∀ e ∈ events, e.userEmail ≠ row.email) :
    row.cost_dollars = PFloat.fin 0 ∧ row.event_tokens = PFloat.fin 0 ∧
      row.cost_cents = PFloat.nan ∧ row.input_tokens = PFloat.nan ∧
      row.output_tokens = PFloat.nan ∧
      row.model_used_count = PFloat.nan := by
  simp only [render_comprehensive_top_users, List.mem_map] at hmem
  obtain ⟨u, hu, hrow⟩ := hmem
  rcases hf : findSpendByEmail u.email (spendAgg events) with _ | s
  · rw [hf] at hrow
    subst hrow
    exact ⟨rfl, rfl, rfl, rfl, rfl, rfl⟩
  · rw [hf] at hrow
    obtain ⟨hs, hse⟩ := findSpendByEmail_some u.email (spendAgg events) s hf
    obtain ⟨e, he, hee⟩ := spendAgg_userEmail events s hs
    have hemail : row.email = u.email := by
      subst hrow
      rfl
    exact absurd (by rw [hee, hse, ← hemail] : e.userEmail = row.email)
      (hno e he)

/-- C3 (counterexample): with users a, b, c and spend for a and c only, the
joined row of user b carries `cost_dollars = 0` but a null (NaN)
`cost_cents` — so unmatched rows do not get 0 for all right-side numeric
fields, only for the two explicitly filled ones. -/
theorem left_join_b_null :
    ((render_comprehensive_top_users exUsers exEvents).map
        (fun r => (r.email, r.cost_cents, r.cost_dollars))) =
      [("a", PFloat.fin 100, PFloat.fin 1), ("b", PFloat.nan, PFloat.fin 0),
       ("c", PFloat.fin 50, PFloat.fin (1/2))] ∧
      PFloat.nan ≠ PFloat.fin 0 := by
  constructor
  · simp [render_comprehensive_top_users, exUsers, exEvents,
      process_usage_events_data, eventRequestType, eventModelUsed, spendAgg,
      uniqueKeys, filterByEmail, nlargestBy, sortDescBy, insertDescBy, pfGtB,
      findSpendByEmail, fillna0]
    norm_num
    simp
  · simp

/-- C3 witness: the amended statement instantiated at user b's joined row. -/
theorem left_join_unmatched_fill_witness :
    (joinedRowB ∈ render_comprehensive_top_users exUsers exEvents) ∧
      (∀ e ∈ exEvents, e.userEmail ≠ joinedRowB.email) ∧
      (joinedRowB.cost_dollars = PFloat.fin 0 ∧
        joinedRowB.event_tokens = PFloat.fin 0 ∧
        joinedRowB.cost_cents = PFloat.nan ∧
        joinedRowB.input_tokens = PFloat.nan ∧
        joinedRowB.output_tokens = PFloat.nan ∧
        joinedRowB.model_used_count = PFloat.nan) :=
  ⟨by
    simp [joinedRowB, render_comprehensive_top_users, exUsers, exEvents,
      process_usage_events_data, eventRequestType, eventModelUsed, spendAgg,
      uniqueKeys, filterByEmail, nlargestBy, sortDescBy, insertDescBy, pfGtB,
      findSpendByEmail, fillna0] <;> norm_num <;> simp,
    by
    simp [joinedRowB, render_comprehensive_top_users, exUsers, exEvents,
      process_usage_events_data, eventRequestType, eventModelUsed, spendAgg,
      uniqueKeys, filterByEmail, nlargestBy, sortDescBy, insertDescBy, pfGtB,
      findSpendByEmail, fillna0] <;> norm_num <;> simp,
    left_join_unmatched_fill exUsers exEvents joinedRowB
      (by
        simp [joinedRowB, render_comprehensive_top_users, exUsers, exEvents,
          process_usage_events_data, eventRequestType, eventModelUsed,
          spendAgg, uniqueKeys, filterByEmail, nlargestBy, sortDescBy,
          insertDescBy, pfGtB, findSpendByEmail, fillna0] <;> norm_num <;>
          simp)
      (by
        simp [joinedRowB, render_comprehensive_top_users, exUsers, exEvents,
          process_usage_events_data, eventRequestType, eventModelUsed,
          spendAgg, uniqueKeys, filterByEmail, nlargestBy, sortDescBy,
          insertDescBy, pfGtB, findSpendByEmail, fillna0] <;> norm_num <;>
          simp)⟩

end CursorAdmin
